import Mathlib

set_option maxRecDepth 400000

/-!
Verification of the evaluation-orchestration core of an AI prompt-evaluation
service: cache-key derivation (`generateCacheKey`), the retry/backoff wrapper
(`generateTextWithRetry`), the system-prompt template engine
(`applyPromptTemplate` / `loadSystemPromptTemplate`), the per-item evaluator
(`evaluatePrompt`), the batch runner (`runEvaluation`), cache seeding
(`prepopulateCache`) and the `/evaluate` route's input validation.

The definitions are a shallow embedding of the TypeScript sources
(`backend/src/utils/aiClient.ts`, `backend/src/utils/cache.ts`,
`backend/src/services/evaluationService.ts`, the evaluation routes file).
External effects (the model provider, the blob storage's write outcomes,
`Date.now()`) are passed in as explicit parameters.
-/

/-! ## JavaScript string semantics: `String.prototype.replace` with a global
literal regex and a string replacement.

`template.replace(/{user_message}/g, userMessage)` scans the subject left to
right for non-overlapping occurrences of the literal pattern; each match is
replaced by the replacement string AFTER processing ECMAScript substitution
sequences (`$$`, `$&`, dollar-backtick, dollar-quote; `$n`/`$<` stay literal
because the regex has no capture groups). -/

/-- The placeholder token of the system-prompt template. -/
def umPattern : List Char := "{user_message}".data

/-- Backtick character (code 96). -/
def backtickChar : Char := Char.ofNat 96

/-- Single-quote character (code 39). -/
def singleQuoteChar : Char := Char.ofNat 39

/-- `startsWithPat p t` is true when `p` occurs at the start of `t`. -/
def startsWithPat : List Char → List Char → Bool
  | [], _ => true
  | _ :: _, [] => false
  | p :: ps, t :: ts => p == t && startsWithPat ps ts

/-- ECMAScript `GetSubstitution` for a string replacement and a regex with no
capture groups, specialised to the fixed matched text `umPattern`:
`$$` yields `$`, `$&` yields the matched text, dollar-backtick yields the part
of the subject before the match, dollar-quote the part after it; any other
`$`-sequence (including `$digit` and `$<`, since there are no capture groups)
is kept literally. -/
def expandSub (before after : List Char) : List Char → List Char
  | [] => []
  | c :: rest =>
    if c = '$' then
      match rest with
      | [] => ['$']
      | d :: rest2 =>
        if d = '$' then '$' :: expandSub before after rest2
        else if d = '&' then umPattern ++ expandSub before after rest2
        else if d = backtickChar then before ++ expandSub before after rest2
        else if d = singleQuoteChar then after ++ expandSub before after rest2
        else '$' :: d :: expandSub before after rest2
    else c :: expandSub before after rest

/-- One left-to-right global-replace pass over the subject.  `pre` holds the
original subject's characters before the current position (needed by the
dollar-backtick substitution), `msg` is the replacement string.  `fuel` only
bounds the recursion; `fuel = subject.length + 1` is always enough because
every step consumes at least one subject character. -/
def jsReplaceUMGo (msg : List Char) : Nat → List Char → List Char → List Char
  | 0, _, t => t
  | fuel + 1, pre, t =>
    if startsWithPat umPattern t then
      expandSub pre (t.drop umPattern.length) msg ++
        jsReplaceUMGo msg fuel (pre ++ umPattern) (t.drop umPattern.length)
    else
      match t with
      | [] => []
      | c :: rest => c :: jsReplaceUMGo msg fuel (pre ++ [c]) rest

/-- `template.replace(/{user_message}/g, userMessage)`
(evaluationService.ts, `applyPromptTemplate`; the same expression is inlined
in `prepopulateCache` in the evaluation routes file). -/
def applyPromptTemplate (template userMessage : String) : String :=
  ⟨jsReplaceUMGo userMessage.data (template.data.length + 1) [] template.data⟩

/-- The hard-coded fallback system prompt of `loadSystemPromptTemplate`. -/
def fallbackSystemPrompt : String :=
  "You are a helpful AI assistant.\n\nUser message: {user_message}"

/-- `loadSystemPromptTemplate(customTemplate?)`: a truthy (non-empty) custom
template wins; otherwise the template file's content is used, and if reading
it fails the hard-coded fallback.  The file read is modelled by the
`fileContent` parameter (`none` = read failure). -/
def loadSystemPromptTemplate (customTemplate : Option String)
    (fileContent : Option String) : String :=
  match customTemplate with
  | some t => if t = "" then fileContent.getD fallbackSystemPrompt else t
  | none => fileContent.getD fallbackSystemPrompt

/-! ## SHA-256 (`crypto.createHash('sha256')`), over the UTF-8 bytes of the
input string, rendered as lowercase hex (`digest('hex')`). -/

/-- Truncation to a 32-bit word. -/
def w32 (n : Nat) : Nat := n % 4294967296

/-- 32-bit right rotation. -/
def rotr (n w : Nat) : Nat := w32 ((w >>> n) ||| (w <<< (32 - n)))

def shaCh (e f g : Nat) : Nat := (e &&& f) ^^^ ((e ^^^ 4294967295) &&& g)

def shaMaj (a b c : Nat) : Nat := (a &&& b) ^^^ (a &&& c) ^^^ (b &&& c)

def bigSigma0 (a : Nat) : Nat := rotr 2 a ^^^ rotr 13 a ^^^ rotr 22 a

def bigSigma1 (e : Nat) : Nat := rotr 6 e ^^^ rotr 11 e ^^^ rotr 25 e

def smallSigma0 (x : Nat) : Nat := rotr 7 x ^^^ rotr 18 x ^^^ (x >>> 3)

def smallSigma1 (x : Nat) : Nat := rotr 17 x ^^^ rotr 19 x ^^^ (x >>> 10)

/-- The 64 SHA-256 round constants of FIPS 180-4 (fractional parts of the
cube roots of the first 64 primes), written in decimal. -/
def shaK : List Nat :=
  [1116352408, 1899447441, 3049323471, 3921009573,
   961987163, 1508970993, 2453635748, 2870763221,
   3624381080, 310598401, 607225278, 1426881987,
   1925078388, 2162078206, 2614888103, 3248222580,
   3835390401, 4022224774, 264347078, 604807628,
   770255983, 1249150122, 1555081692, 1996064986,
   2554220882, 2821834349, 2952996808, 3210313671,
   3336571891, 3584528711, 113926993, 338241895,
   666307205, 773529912, 1294757372, 1396182291,
   1695183700, 1986661051, 2177026350, 2456956037,
   2730485921, 2820302411, 3259730800, 3345764771,
   3516065817, 3600352804, 4094571909, 275423344,
   430227734, 506948616, 659060556, 883997877,
   958139571, 1322822218, 1537002063, 1747873779,
   1955562222, 2024104815, 2227730452, 2361852424,
   2428436474, 2756734187, 3204031479, 3329325298]

/-- The eight working variables of the compression function. -/
structure SHAState where
  a : Nat
  b : Nat
  c : Nat
  d : Nat
  e : Nat
  f : Nat
  g : Nat
  h : Nat

/-- The SHA-256 initial hash value of FIPS 180-4 (fractional parts of the
square roots of the first 8 primes), written in decimal. -/
def shaInit : SHAState :=
  ⟨1779033703, 3144134277, 1013904242, 2773480762,
   1359893119, 2600822924, 528734635, 1541459225⟩

/-- Big-endian packing of bytes into 32-bit words. -/
def bytesToWords : List Nat → List Nat
  | b0 :: b1 :: b2 :: b3 :: rest =>
      (b0 * 16777216 + b1 * 65536 + b2 * 256 + b3) :: bytesToWords rest
  | _ => []

/-- Extend the 16-word block to the 64-word message schedule (`k` more words
to append). -/
def extendSchedule (ws : List Nat) : Nat → List Nat
  | 0 => ws
  | k + 1 =>
      let n := ws.length
      extendSchedule
        (ws ++ [w32 (smallSigma1 (ws.getD (n - 2) 0) + ws.getD (n - 7) 0 +
                     smallSigma0 (ws.getD (n - 15) 0) + ws.getD (n - 16) 0)]) k

/-- One round of the compression function. -/
def shaRound (st : SHAState) (k w : Nat) : SHAState :=
  let t1 := w32 (st.h + bigSigma1 st.e + shaCh st.e st.f st.g + k + w)
  let t2 := w32 (bigSigma0 st.a + shaMaj st.a st.b st.c)
  ⟨w32 (t1 + t2), st.a, st.b, st.c, w32 (st.d + t1), st.e, st.f, st.g⟩

/-- Compress one 64-byte block into the running state. -/
def compressBlock (st : SHAState) (block : List Nat) : SHAState :=
  let ws := extendSchedule (bytesToWords block) 48
  let fin := (shaK.zip ws).foldl (fun s p => shaRound s p.1 p.2) st
  ⟨w32 (st.a + fin.a), w32 (st.b + fin.b), w32 (st.c + fin.c),
   w32 (st.d + fin.d), w32 (st.e + fin.e), w32 (st.f + fin.f),
   w32 (st.g + fin.g), w32 (st.h + fin.h)⟩

/-- Fold the compression function over the 64-byte blocks of the padded
message.  `fuel` bounds the recursion; `bytes.length` is always enough. -/
def foldBlocks (fuel : Nat) (st : SHAState) (bytes : List Nat) : SHAState :=
  match fuel, bytes with
  | _, [] => st
  | 0, _ => st
  | f + 1, bs => foldBlocks f (compressBlock st (bs.take 64)) (bs.drop 64)

/-- Big-endian rendering of `n` into `count` bytes. -/
def beBytes (count n : Nat) : List Nat :=
  (List.range count).map (fun i => n >>> ((count - 1 - i) * 8) % 256)

/-- SHA-256 padding: `0x80`, zeros, then the 64-bit big-endian bit length,
bringing the length to a multiple of 64. -/
def sha256pad (msg : List Nat) : List Nat :=
  msg ++ [128] ++ List.replicate ((64 - (msg.length + 9) % 64) % 64) 0 ++
    beBytes 8 (msg.length * 8)

/-- The sixteen lowercase hexadecimal digit characters. -/
def hexDigitChars : List Char := "0123456789abcdef".data

def nibbleChar (n : Nat) : Char := hexDigitChars.getD n '0'

/-- Lowercase-hex rendering of a 32-bit word, always 8 characters. -/
def toHex8 (w : Nat) : List Char :=
  (List.range 8).map (fun i => nibbleChar (w >>> ((7 - i) * 4) % 16))

/-- SHA-256 digest of a byte sequence, rendered as lowercase hex. -/
def sha256Hex (msg : List Nat) : String :=
  let padded := sha256pad msg
  let st := foldBlocks padded.length shaInit padded
  ⟨toHex8 st.a ++ toHex8 st.b ++ toHex8 st.c ++ toHex8 st.d ++
   toHex8 st.e ++ toHex8 st.f ++ toHex8 st.g ++ toHex8 st.h⟩

/-- UTF-8 encoding of one character. -/
def utf8EncodeChar (c : Char) : List Nat :=
  let n := c.toNat
  if n < 128 then [n]
  else if n < 2048 then [192 + n / 64, 128 + n % 64]
  else if n < 65536 then [224 + n / 4096, 128 + n / 64 % 64, 128 + n % 64]
  else [240 + n / 262144, 128 + n / 4096 % 64, 128 + n / 64 % 64, 128 + n % 64]

/-- UTF-8 bytes of a string (`hash.update(string)` uses UTF-8). -/
def utf8Bytes (s : String) : List Nat := (s.data.map utf8EncodeChar).flatten

/-- The string fed to the hash: `` `${model}|${systemPrompt}|${userMessage}` ``. -/
def serializeCacheInput (model systemPrompt userMessage : String) : String :=
  model ++ "|" ++ systemPrompt ++ "|" ++ userMessage

/-- `generateCacheKey` (cache.ts): SHA-256 of
`` `${model}|${systemPrompt}|${userMessage}` `` as lowercase hex. -/
def generateCacheKey (model systemPrompt userMessage : String) : String :=
  sha256Hex (utf8Bytes (serializeCacheInput model systemPrompt userMessage))

/-! ## The retrying model client (`aiClient.ts`). -/

/-- Token-usage metadata of a provider response. -/
structure Usage where
  promptTokens : Nat
  completionTokens : Nat
  totalTokens : Nat
deriving DecidableEq

/-- `GenerateTextResult` (aiClient.ts). -/
structure GenerateTextResult where
  text : String
  latencyMs : Nat
  usage : Option Usage
deriving DecidableEq

/-- A JavaScript value thrown by the provider call: whether it is an `Error`
instance, and its `message` / `statusCode` / `status` properties (`none` =
property absent). -/
structure JSError where
  isError : Bool
  message : Option String
  statusCode : Option Nat
  status : Option Nat
deriving DecidableEq

/-- `haystack.includes(needle)` on character lists. -/
def hasSubstr (needle : List Char) : List Char → Bool
  | [] => startsWithPat needle []
  | c :: rest => startsWithPat needle (c :: rest) || hasSubstr needle rest

/-- `error?.statusCode || error?.status`: `statusCode` wins when truthy
(present and non-zero), otherwise `status`. -/
def jsStatusOf (e : JSError) : Option Nat :=
  match e.statusCode with
  | some n => if n = 0 then e.status else some n
  | none => e.status

/-- `message.toLowerCase()`, character-wise (ASCII case mapping; the needles
compared against are plain ASCII). -/
def jsToLower (s : String) : List Char := s.data.map Char.toLower

/-- `isRateLimitError` (aiClient.ts): status 429, or the lower-cased message
contains `'rate limit'` or `'too many requests'`. -/
def isRateLimitError (e : JSError) : Bool :=
  let message := jsToLower (e.message.getD "")
  jsStatusOf e == some 429 ||
    hasSubstr "rate limit".data message ||
    hasSubstr "too many requests".data message

/-- `error instanceof Error ? error.message : 'Unknown error'`
(evaluationService.ts / the routes file). -/
def jsErrorMessage (e : JSError) : String :=
  if e.isError then e.message.getD "" else "Unknown error"

/-- `maxRetries` (aiClient.ts). -/
def maxRetries : Nat := 5

/-- `baseDelay` in milliseconds (aiClient.ts). -/
def baseDelay : Nat := 1000

/-- What one call to `generateTextWithRetry` did: its outcome (`.ok` =
returned, `.error` = threw), how many provider calls it made, and the
sequence of back-off sleeps (in ms) it performed. -/
structure RetryOutcome where
  result : Except JSError GenerateTextResult
  calls : Nat
  delays : List Nat

/-- The retry loop of `generateTextWithRetry`.  `provider attempt` is the
outcome of the provider call made on attempt number `attempt` (0-based).
`fuel` is the number of loop iterations left (`maxRetries - attempt`);
`lastError` mirrors the `lastError` variable (thrown should the loop ever
exit, which it cannot).  On an error that is rate-limited and not on the
last attempt, sleep `baseDelay * 2 ^ attempt` and continue; otherwise
rethrow. -/
def retryLoop (provider : Nat → Except JSError GenerateTextResult)
    (lastError : JSError) : Nat → Nat → RetryOutcome
  | _, 0 => ⟨.error lastError, 0, []⟩
  | attempt, fuel + 1 =>
    match provider attempt with
    | .ok r => ⟨.ok r, 1, []⟩
    | .error e =>
      if isRateLimitError e = true ∧ attempt < maxRetries - 1 then
        let rest := retryLoop provider e (attempt + 1) fuel
        ⟨rest.result, rest.calls + 1, baseDelay * 2 ^ attempt :: rest.delays⟩
      else ⟨.error e, 1, []⟩

/-- `undefined`: the initial value of `lastError`. -/
def jsUndefined : JSError := ⟨false, none, none, none⟩

/-- `generateTextWithRetry` (aiClient.ts), as a function of the provider's
per-attempt outcomes. -/
def generateTextWithRetry (provider : Nat → Except JSError GenerateTextResult) :
    RetryOutcome :=
  retryLoop provider jsUndefined 0 maxRetries

/-! ## The cache store (`cache.ts`).  The blob/KV storage is modelled as an
association list from cache keys to entries, newest binding first (a write
for an existing key shadows it: last-writer-wins). -/

/-- `CacheEntry` (types.ts). -/
structure CacheEntry where
  prompt : String
  response : String
  model : String
  systemPrompt : String
  timestamp : Nat
  latencyMs : Nat
deriving DecidableEq

/-- The cache storage state. -/
def Cache := List (String × CacheEntry)

/-- Read a key from cache storage. -/
def cacheFind (c : Cache) (k : String) : Option CacheEntry := List.lookup k c

/-- `getCachedResponse` (cache.ts): look up the key derived from the triple;
any read failure is caught and treated as a miss, so the result is the stored
entry or `none`. -/
def getCachedResponse (c : Cache) (model systemPrompt userMessage : String) :
    Option CacheEntry :=
  cacheFind c (generateCacheKey model systemPrompt userMessage)

/-- `setCachedResponse` (cache.ts): store an entry under the derived key.
`now` stands for `Date.now()`. -/
def setCachedResponse (c : Cache) (model systemPrompt userMessage response : String)
    (latencyMs now : Nat) : Cache :=
  (generateCacheKey model systemPrompt userMessage,
    ⟨userMessage, response, model, systemPrompt, now, latencyMs⟩) :: c

/-! ## The per-item evaluator and the batch runner
(`evaluationService.ts`). -/

/-- `EvaluationResult` (types.ts). -/
structure EvaluationResult where
  prompt : String
  response : String
  cached : Bool
  latencyMs : Nat
  error : Option String
deriving DecidableEq

/-- What one `evaluatePrompt` call produced: its result, the cache state it
left behind, and how many provider calls it made. -/
structure EvalOutcome where
  result : EvaluationResult
  cache : Cache
  providerCalls : Nat

/-- `evaluatePrompt` (evaluationService.ts).  `provider` gives the provider
call outcomes per attempt; `writeErr` is the outcome of the cache write
(`some e` = `setCachedResponse` threw `e`); `now` stands for `Date.now()`.
The whole body is wrapped in a `try`: on a cache hit the entry is returned
with `cached: true`; on a miss the model is called through the retry wrapper
and the result written to the cache; any exception (exhausted retries, a
terminal provider error, or a cache-write failure) is caught and turned into
an error result with empty response and zero latency. -/
def evaluatePrompt (provider : Nat → Except JSError GenerateTextResult)
    (writeErr : Option JSError) (now : Nat)
    (prompt model systemPromptTemplate : String) (cache : Cache) : EvalOutcome :=
  let systemPrompt := applyPromptTemplate systemPromptTemplate prompt
  match getCachedResponse cache model systemPrompt prompt with
  | some entry =>
      ⟨⟨prompt, entry.response, true, entry.latencyMs, none⟩, cache, 0⟩
  | none =>
    let out := generateTextWithRetry provider
    match out.result with
    | .ok r =>
      match writeErr with
      | none =>
          ⟨⟨prompt, r.text, false, r.latencyMs, none⟩,
           setCachedResponse cache model systemPrompt prompt r.text r.latencyMs now,
           out.calls⟩
      | some e =>
          ⟨⟨prompt, "", false, 0, some (jsErrorMessage e)⟩, cache, out.calls⟩
    | .error e =>
        ⟨⟨prompt, "", false, 0, some (jsErrorMessage e)⟩, cache, out.calls⟩

/-- `DEFAULT_MODEL` (evaluationService.ts). -/
def DEFAULT_MODEL : String := "claude-3-5-sonnet-20241022"

/-- JavaScript `a || d` for an optional string: `d` when `a` is absent or
empty. -/
def jsOrString (a : Option String) (d : String) : String :=
  match a with
  | some s => if s = "" then d else s
  | none => d

/-- The result of a batch run: the per-item results in input order, the final
cache state, and the total number of provider calls made. -/
structure RunOutcome where
  results : List EvaluationResult
  cache : Cache
  providerCalls : Nat

/-- The sequential loop of `runEvaluation`: evaluate each prompt in order,
threading the cache.  `provider i` and `writeErr i` are the external outcomes
for the item at absolute index `i`. -/
def runEvalAux (provider : Nat → Nat → Except JSError GenerateTextResult)
    (writeErr : Nat → Option JSError) (now : Nat) (model template : String) :
    List String → Nat → Cache → RunOutcome
  | [], _, c => ⟨[], c, 0⟩
  | p :: ps, i, c =>
    let o := evaluatePrompt (provider i) (writeErr i) now p model template c
    let rest := runEvalAux provider writeErr now model template ps (i + 1) o.cache
    ⟨o.result :: rest.results, rest.cache, o.providerCalls + rest.providerCalls⟩

/-- `runEvaluation` (evaluationService.ts): pick the model
(`model || DEFAULT_MODEL`), load the system-prompt template, then evaluate
every prompt sequentially.  Every per-item failure is caught inside
`evaluatePrompt`, so the run always returns a full result list. -/
def runEvaluation (provider : Nat → Nat → Except JSError GenerateTextResult)
    (writeErr : Nat → Option JSError) (now : Nat)
    (prompts : List String) (model : Option String)
    (systemPrompt : Option String) (fileContent : Option String)
    (cache : Cache) : RunOutcome :=
  let modelToUse := jsOrString model DEFAULT_MODEL
  let template := loadSystemPromptTemplate systemPrompt fileContent
  runEvalAux provider writeErr now modelToUse template prompts 0 cache

/-- `r.error` truthiness: present and non-empty. -/
def truthyError (r : EvaluationResult) : Bool :=
  match r.error with
  | some s => !(s == "")
  | none => false

/-- The `errors` counter of the run summary (`saveRun` in runStorage.ts and
the `/evaluate` route): the number of results whose `error` is truthy. -/
def summaryErrors (rs : List EvaluationResult) : Nat :=
  (rs.filter truthyError).length

/-- The `cached` counter of the run summary. -/
def summaryCached (rs : List EvaluationResult) : Nat :=
  (rs.filter (·.cached)).length

/-- The `totalTests` counter of the run summary. -/
def summaryTotalTests (rs : List EvaluationResult) : Nat := rs.length

/-! ## Cache seeding and the `/evaluate` route (evaluation routes file). -/

/-- A CSV import row (types.ts `CsvImportRow`). -/
structure CsvImportRow where
  question : String
  promptName : String
  promptContent : String
  answer : String

/-- The failure message recorded by `prepopulateCache` for one row
(`question.substring(0, 50)` followed by the thrown error's message). -/
def prepopFailMessage (row : CsvImportRow) (e : JSError) : String :=
  "Failed to cache answer for question \"" ++ (⟨row.question.data.take 50⟩ : String) ++
    "...\": " ++ jsErrorMessage e

/-- What `prepopulateCache` produced: the cache it left behind, its `cached`
counter and its `errors` list. -/
structure PrepopOutcome where
  cache : Cache
  cached : Nat
  errors : List String

/-- The loop of `prepopulateCache` (routes file): for each import row, apply
the prompt template to the question exactly as the evaluator does, then store
the supplied answer under the derived key with `latencyMs = 0`; a write
failure (`writeErrs i = some e`) is caught, recorded in `errors`, and the
loop continues. -/
def prepopulateCacheGo (writeErrs : Nat → Option JSError) (model : String)
    (now : Nat) : List CsvImportRow → Nat → Cache → PrepopOutcome
  | [], _, c => ⟨c, 0, []⟩
  | row :: rows, i, c =>
    let appliedSystemPrompt := applyPromptTemplate row.promptContent row.question
    match writeErrs i with
    | none =>
      let c' := setCachedResponse c model appliedSystemPrompt row.question
                  row.answer 0 now
      let rest := prepopulateCacheGo writeErrs model now rows (i + 1) c'
      ⟨rest.cache, rest.cached + 1, rest.errors⟩
    | some e =>
      let rest := prepopulateCacheGo writeErrs model now rows (i + 1) c
      ⟨rest.cache, rest.cached, prepopFailMessage row e :: rest.errors⟩

/-- `prepopulateCache(importRows, model)` (routes file). -/
def prepopulateCache (writeErrs : Nat → Option JSError) (model : String)
    (now : Nat) (importRows : List CsvImportRow) (c : Cache) : PrepopOutcome :=
  prepopulateCacheGo writeErrs model now importRows 0 c

/-- A stored system prompt (`{ name, content }`). -/
structure SystemPromptDef where
  name : String
  content : String

/-- `PromptResult` (types.ts): results of one system prompt over all
messages, in input order. -/
structure PromptResult where
  promptName : String
  promptContent : String
  results : List EvaluationResult

/-- Modelled from the spec: `runMultiPromptEvaluation` is imported by the
routes file from `evaluationService` but its defining module is not among the
sources; spec §4.4 requires, for each system prompt in supplied order, one
`EvaluationResult` per message in supplied order, each produced by resolving
the template, checking the cache and on a miss calling the retrying client —
i.e. the in-repo per-item evaluator `evaluatePrompt` applied with the system
prompt's content as template, threading the cache.  `provider j i` /
`writeErr j i` are the external outcomes for system prompt `j`, message `i`. -/
def runMultiGo (provider : Nat → Nat → Nat → Except JSError GenerateTextResult)
    (writeErr : Nat → Nat → Option JSError) (now : Nat) (messages : List String)
    (model : String) : List SystemPromptDef → Nat → Cache →
    List PromptResult × Cache × Nat
  | [], _, c => ([], c, 0)
  | sp :: sps, j, c =>
    let o := runEvalAux (provider j) (writeErr j) now model sp.content messages 0 c
    let rest := runMultiGo provider writeErr now messages model sps (j + 1) o.cache
    (⟨sp.name, sp.content, o.results⟩ :: rest.1, rest.2.1, o.providerCalls + rest.2.2)

/-- Modelled from the spec: see `runMultiGo`. -/
def runMultiPromptEvaluation
    (provider : Nat → Nat → Nat → Except JSError GenerateTextResult)
    (writeErr : Nat → Nat → Option JSError) (now : Nat)
    (messages : List String) (systemPrompts : List SystemPromptDef)
    (model : String) (c : Cache) : List PromptResult × Cache × Nat :=
  runMultiGo provider writeErr now messages model systemPrompts 0 c

/-- `DEFAULT_MODEL` of the routes file. -/
def ROUTE_DEFAULT_MODEL : String := "claude-sonnet-4-5-20250929"

/-- A stored dataset (`loadDataset` result): its prompts (the questions). -/
structure Dataset where
  prompts : List String

/-- The body of a `/evaluate` request that carries no CSV file upload. -/
structure EvalRequestNoFile where
  runName : Option String
  datasetName : Option String
  promptNames : List String
  model : Option String

/-- The summary block of the `/evaluate` success response. -/
structure RouteSummary where
  totalPrompts : Nat
  totalTests : Nat
  cached : Nat
  errors : Nat
deriving DecidableEq

/-- The HTTP response of the `/evaluate` route. -/
inductive RouteResponse where
  | httpError (status : Nat) (message : String)
  | success (promptResults : List PromptResult) (summary : RouteSummary)

/-- The prompt-name resolution loop of the route (no CSV prompts present, so
nothing is skipped): load each requested prompt in order; the first missing
name aborts with it. -/
def resolvePromptNames (store : String → Option SystemPromptDef) :
    List String → Except String (List SystemPromptDef)
  | [] => .ok []
  | n :: ns =>
    match store n with
    | none => .error n
    | some p => (resolvePromptNames store ns).map (p :: ·)

/-- Summary counters the route computes over the prompt results. -/
def routeSummaryOf (totalPrompts : Nat) (prs : List PromptResult) : RouteSummary :=
  ⟨totalPrompts,
   (prs.map (fun pr => summaryTotalTests pr.results)).sum,
   (prs.map (fun pr => summaryCached pr.results)).sum,
   (prs.map (fun pr => summaryErrors pr.results)).sum⟩

/-- What the route left behind: its response, the final cache state, and the
total number of model-provider calls made while handling the request. -/
structure RouteOutcome where
  response : RouteResponse
  cache : Cache
  providerCalls : Nat

/-- The `/evaluate` handler (routes file) for requests without a CSV file:
validate `runName`; load the named dataset (404 when absent, 400 when no
`datasetName` was sent); reject an empty dataset; resolve the requested
system prompts (404 on a missing name, 400 when none are left); only then run
the evaluation and assemble the summary.  Every guard fires before any
per-item work: the cache is untouched and no provider call is made. -/
def evaluateRoute (req : EvalRequestNoFile)
    (datasets : String → Option Dataset)
    (promptStore : String → Option SystemPromptDef)
    (provider : Nat → Nat → Nat → Except JSError GenerateTextResult)
    (writeErr : Nat → Nat → Option JSError) (now : Nat) (cache : Cache) :
    RouteOutcome :=
  let model := jsOrString req.model ROUTE_DEFAULT_MODEL
  match req.runName with
  | none => ⟨.httpError 400 "runName is required.", cache, 0⟩
  | some rn =>
    if rn.trim = "" then ⟨.httpError 400 "runName is required.", cache, 0⟩
    else
      match req.datasetName with
      | none =>
          ⟨.httpError 400
            "No dataset provided. Send either a CSV file with datasetName, or an existing datasetName.",
           cache, 0⟩
      | some dn =>
        match datasets dn with
        | none => ⟨.httpError 404 ("Dataset not found: " ++ dn), cache, 0⟩
        | some ds =>
          if ds.prompts.length = 0 then
            ⟨.httpError 400 "No valid prompts found in dataset.", cache, 0⟩
          else
            match resolvePromptNames promptStore req.promptNames with
            | .error name =>
                ⟨.httpError 404 ("System prompt not found: " ++ name), cache, 0⟩
            | .ok systemPrompts =>
              if systemPrompts.length = 0 then
                ⟨.httpError 400
                  "No system prompts specified. Either include prompts in CSV or provide promptNames.",
                 cache, 0⟩
              else
                let o := runMultiPromptEvaluation provider writeErr now
                           ds.prompts systemPrompts model cache
                ⟨.success o.1 (routeSummaryOf systemPrompts.length o.1),
                 o.2.1, o.2.2⟩

/-! ## Concrete fixtures used by witnesses and counterexamples. -/

/-- A rate-limited provider error (HTTP 429). -/
def rateLimitError : JSError := ⟨true, some "Rate limit exceeded", some 429, none⟩

/-- A terminal (non-rate-limit) provider error. -/
def terminalError : JSError := ⟨true, some "Invalid API key", some 401, none⟩

/-- A successful provider response. -/
def okResult : GenerateTextResult := ⟨"AI is...", 120, none⟩

/-- A provider that is rate-limited on attempts 0–3 and succeeds on attempt 4. -/
def providerRlThenOk : Nat → Except JSError GenerateTextResult :=
  fun i => if i < 4 then .error rateLimitError else .ok okResult

/-- A provider that is rate-limited on every attempt. -/
def providerAlwaysRl : Nat → Except JSError GenerateTextResult :=
  fun _ => .error rateLimitError

/-- A provider that fails terminally on every attempt. -/
def providerTerminal : Nat → Except JSError GenerateTextResult :=
  fun _ => .error terminalError

/-- Follows the spec's words (§4.2), for comparison with
`applyPromptTemplate`: every literal occurrence of the placeholder is
replaced by the message VERBATIM (no `$`-sequence processing), scanning left
to right without rescanning inserted text.  Same recursion structure as
`jsReplaceUMGo`. -/
def verbatimReplaceUMGo (msg : List Char) : Nat → List Char → List Char → List Char
  | 0, _, t => t
  | fuel + 1, pre, t =>
    if startsWithPat umPattern t then
      msg ++ verbatimReplaceUMGo msg fuel (pre ++ umPattern) (t.drop umPattern.length)
    else
      match t with
      | [] => []
      | c :: rest => c :: verbatimReplaceUMGo msg fuel (pre ++ [c]) rest

/-- Follows the spec's words: verbatim global replacement of the
placeholder. -/
def applyPromptTemplateVerbatim (template userMessage : String) : String :=
  ⟨verbatimReplaceUMGo userMessage.data (template.data.length + 1) [] template.data⟩

/-- Is the `Except` outcome a failure? -/
def resultFails : Except JSError GenerateTextResult → Bool
  | .ok _ => false
  | .error _ => true

/-- The result `evaluatePrompt` produces for an uncached item, as a function
of the retry wrapper's outcome: the response text on success, the
empty-response error shape on failure. -/
def expectedItemResult (provider : Nat → Except JSError GenerateTextResult)
    (p : String) : EvaluationResult :=
  match (generateTextWithRetry provider).result with
  | .ok r => ⟨p, r.text, false, r.latencyMs, none⟩
  | .error e => ⟨p, "", false, 0, some (jsErrorMessage e)⟩

/-- The per-item results of a batch over all-miss, non-interfering items. -/
def expectedResults (provider : Nat → Nat → Except JSError GenerateTextResult) :
    Nat → List String → List EvaluationResult
  | _, [] => []
  | i, p :: ps => expectedItemResult (provider i) p :: expectedResults provider (i + 1) ps

/-- The number of items whose model call (after retries) fails. -/
def failingCount (provider : Nat → Nat → Except JSError GenerateTextResult) :
    Nat → List String → Nat
  | _, [] => 0
  | i, _ :: ps =>
    (if resultFails (generateTextWithRetry (provider i)).result then 1 else 0) +
      failingCount provider (i + 1) ps

/-- The cache key under which the evaluator reads/writes an item. -/
def itemKey (model template p : String) : String :=
  generateCacheKey model (applyPromptTemplate template p) p

/-- A default `EvaluationResult` (for positional access in statements). -/
def dummyEvaluationResult : EvaluationResult := ⟨"", "", false, 0, none⟩

/-- Is the route response an HTTP error? -/
def isHttpError : RouteResponse → Bool
  | .httpError _ _ => true
  | .success _ _ => false

/-- A cache-write failure. -/
def writeFailError : JSError := ⟨true, some "disk full", none, none⟩

/-- A provider that always succeeds. -/
def providerAlwaysOk : Nat → Except JSError GenerateTextResult :=
  fun _ => .ok okResult

/-- A three-item batch provider whose second item (index 1) fails
terminally and whose other items succeed. -/
def batchProviderSecondFails : Nat → Nat → Except JSError GenerateTextResult :=
  fun i _ => if i = 1 then .error terminalError else .ok okResult

/-- A concrete CSV import row. -/
def sampleRow : CsvImportRow :=
  ⟨"What is AI?", "baseline", "You are helpful.\n\n{user_message}", "AI is..."⟩

/-- An `Error` instance whose `message` is the empty string (terminal: not
rate-limited). -/
def emptyMsgError : JSError := ⟨true, some "", none, none⟩

/-- A three-item batch provider whose second item (index 1) fails with an
empty-message `Error` and whose other items succeed. -/
def batchProviderSecondFailsEmptyMsg : Nat → Nat → Except JSError GenerateTextResult :=
  fun i _ => if i = 1 then .error emptyMsgError else .ok okResult

/-! ## Theorems -/

/-- **C1.** `generateTextWithRetry` call counts: a provider rate-limited on
attempts 0–3 and successful on attempt 4 yields exactly 5 provider calls and
the success result; a provider rate-limited on every attempt yields exactly
5 calls and the 5th attempt's error; a terminal error on the first attempt
yields exactly 1 call and that error, with no retry. -/
theorem c1_retry_call_counts
    (p₁ p₂ p₃ : Nat → Except JSError GenerateTextResult)
    (rl : JSError) (res : GenerateTextResult) (errs : Nat → JSError) (e : JSError)
    (h11 : ∀ i, i < 4 → p₁ i = .error rl)
    (h12 : isRateLimitError rl = true)
    (h13 : p₁ 4 = .ok res)
    (h21 : ∀ i, i < 5 → p₂ i = .error (errs i))
    (h22 : ∀ i, i < 5 → isRateLimitError (errs i) = true)
    (h31 : p₃ 0 = .error e)
    (h32 : isRateLimitError e = false) :
    generateTextWithRetry p₁ = ⟨.ok res, 5, [1000, 2000, 4000, 8000]⟩ ∧
    generateTextWithRetry p₂ = ⟨.error (errs 4), 5, [1000, 2000, 4000, 8000]⟩ ∧
    generateTextWithRetry p₃ = ⟨.error e, 1, []⟩ := by
  refine ⟨?_, ?_, ?_⟩
  · have e0 := h11 0 (by norm_num)
    have e1 := h11 1 (by norm_num)
    have e2 := h11 2 (by norm_num)
    have e3 := h11 3 (by norm_num)
    simp [generateTextWithRetry, retryLoop, e0, e1, e2, e3, h13, h12,
      maxRetries, baseDelay]
  · have e0 := h21 0 (by norm_num)
    have e1 := h21 1 (by norm_num)
    have e2 := h21 2 (by norm_num)
    have e3 := h21 3 (by norm_num)
    have e4 := h21 4 (by norm_num)
    have r0 := h22 0 (by norm_num)
    have r1 := h22 1 (by norm_num)
    have r2 := h22 2 (by norm_num)
    have r3 := h22 3 (by norm_num)
    simp [generateTextWithRetry, retryLoop, e0, e1, e2, e3, e4,
      r0, r1, r2, r3, maxRetries, baseDelay]
  · simp [generateTextWithRetry, retryLoop, h31, h32, maxRetries]

/-- **C1 witness**: the three scenarios instantiated with concrete
providers. -/
theorem c1_retry_call_counts_witness :
    generateTextWithRetry providerRlThenOk = ⟨.ok okResult, 5, [1000, 2000, 4000, 8000]⟩ ∧
    generateTextWithRetry providerAlwaysRl =
      ⟨.error rateLimitError, 5, [1000, 2000, 4000, 8000]⟩ ∧
    generateTextWithRetry providerTerminal = ⟨.error terminalError, 1, []⟩ :=
  c1_retry_call_counts providerRlThenOk providerAlwaysRl providerTerminal
    rateLimitError okResult (fun _ => rateLimitError) terminalError
    (fun i hi => by simp [providerRlThenOk, hi])
    (by decide)
    (by simp [providerRlThenOk])
    (fun _ _ => rfl)
    (fun _ _ => show isRateLimitError rateLimitError = true by decide)
    rfl
    (by decide)

/-- **C2 counterexample**: against a provider that is rate-limited on every
attempt, the code sleeps only after attempts 0–3 (1s, 2s, 4s, 8s — the
comment in the source says "Don't sleep on the last attempt"), so the
worst-case total sleep before the error propagates is 15 s, not 31 s, and no
16 s sleep ever occurs. -/
theorem c2_backoff_counterexample :
    (generateTextWithRetry providerAlwaysRl).delays = [1000, 2000, 4000, 8000] ∧
    (generateTextWithRetry providerAlwaysRl).delays.sum = 15000 ∧
    (generateTextWithRetry providerAlwaysRl).delays ≠ [1000, 2000, 4000, 8000, 16000] ∧
    (generateTextWithRetry providerAlwaysRl).delays.sum ≠ 31000 ∧
    (generateTextWithRetry providerAlwaysRl).calls = 5 := by
  refine ⟨by decide, by decide, by decide, by decide, by decide⟩

/-- **C2 (amended).** When attempt `k` fails with a rate-limit error and a
retry follows (which happens only for `k ≤ 3`), the client sleeps
`baseDelay * 2^k` ms before the next attempt: exhausting all 5 attempts
produces the sleep sequence 1s, 2s, 4s, 8s — attempt 4's failure propagates
with no further sleep — for a worst-case total of 15 s; the same four sleeps
precede a success on attempt 4. -/
theorem c2_backoff_delays
    (p₁ p₂ : Nat → Except JSError GenerateTextResult)
    (rl : JSError) (res : GenerateTextResult) (errs : Nat → JSError)
    (h11 : ∀ i, i < 4 → p₁ i = .error rl)
    (h12 : isRateLimitError rl = true)
    (h13 : p₁ 4 = .ok res)
    (h21 : ∀ i, i < 5 → p₂ i = .error (errs i))
    (h22 : ∀ i, i < 5 → isRateLimitError (errs i) = true) :
    (generateTextWithRetry p₁).delays =
      [baseDelay * 2 ^ 0, baseDelay * 2 ^ 1, baseDelay * 2 ^ 2, baseDelay * 2 ^ 3] ∧
    (generateTextWithRetry p₂).delays =
      [baseDelay * 2 ^ 0, baseDelay * 2 ^ 1, baseDelay * 2 ^ 2, baseDelay * 2 ^ 3] ∧
    (generateTextWithRetry p₂).delays.sum = 15000 := by
  have e0 := h11 0 (by norm_num)
  have e1 := h11 1 (by norm_num)
  have e2 := h11 2 (by norm_num)
  have e3 := h11 3 (by norm_num)
  have f0 := h21 0 (by norm_num)
  have f1 := h21 1 (by norm_num)
  have f2 := h21 2 (by norm_num)
  have f3 := h21 3 (by norm_num)
  have f4 := h21 4 (by norm_num)
  have r0 := h22 0 (by norm_num)
  have r1 := h22 1 (by norm_num)
  have r2 := h22 2 (by norm_num)
  have r3 := h22 3 (by norm_num)
  refine ⟨?_, ?_, ?_⟩ <;>
    simp [generateTextWithRetry, retryLoop, e0, e1, e2, e3, h13, h12,
      f0, f1, f2, f3, f4, r0, r1, r2, r3, maxRetries, baseDelay]

/-- The characters of a `String.mk`. -/
theorem data_mk (l : List Char) : (⟨l⟩ : String).data = l := rfl

/-- `nibbleChar` always lands in the lowercase hex alphabet. -/
theorem nibbleChar_mem (n : Nat) : nibbleChar n ∈ hexDigitChars := by
  unfold nibbleChar
  rcases Nat.lt_or_ge n hexDigitChars.length with h | h
  · rw [List.getD_eq_getElem _ _ h]
    exact List.getElem_mem h
  · rw [List.getD_eq_default _ _ h]
    decide

/-- **C10.** `generateCacheKey` is total (a Lean function) and format-stable:
for every input triple — empty strings, strings containing the delimiter `|`,
non-ASCII strings — the key is a 64-character string over the lowercase
hexadecimal alphabet (the hex encoding of the 256-bit SHA-256 digest). -/
theorem c10_cache_key_format (m s u : String) :
    (generateCacheKey m s u).length = 64 ∧
    ∀ ch ∈ (generateCacheKey m s u).data, ch ∈ hexDigitChars := by
  constructor
  · simp [generateCacheKey, sha256Hex, String.length, data_mk, toHex8]
  · intro ch hch
    have hx : ∀ w : Nat, ch ∈ toHex8 w → ch ∈ hexDigitChars := by
      intro w hw
      simp only [toHex8, List.mem_map] at hw
      obtain ⟨i, -, hi⟩ := hw
      rw [← hi]
      exact nibbleChar_mem _
    simp only [generateCacheKey, sha256Hex, data_mk, List.mem_append] at hch
    rcases hch with ((((((h | h) | h) | h) | h) | h) | h) | h <;> exact hx _ h

/-- **C5 counterexample.** Two triples that differ (in their first two
fields) yet receive the same cache key: the `|`-joined serialization of
`("a|b", "c", "d")` and `("a", "b|c", "d")` is the same string `"a|b|c|d"`,
so SHA-256 hashes the same bytes. -/
theorem c5_counterexample :
    generateCacheKey "a|b" "c" "d" = generateCacheKey "a" "b|c" "d" ∧
    (("a|b", "c", "d") : String × String × String) ≠ ("a", "b|c", "d") := by
  constructor
  · have h : serializeCacheInput "a|b" "c" "d" = serializeCacheInput "a" "b|c" "d" := by
      decide
    unfold generateCacheKey
    rw [h]
  · decide

/-- **C5 (amended).** `generateCacheKey` is a pure deterministic function:
identical triples always yield identical keys.  No normalization is applied:
a change confined to any single field — whitespace included — changes the
`model|systemPrompt|userMessage` string that is hashed (shown by the three
single-field injectivity conjuncts), and on a concrete whitespace-only
change the keys themselves differ; but triples differing in two or more
fields can collide via `|`-delimiter ambiguity (see the counterexample). -/
theorem c5_cache_key_determinism
    (m m' s s' u u' : String)
    (hm : serializeCacheInput m s u = serializeCacheInput m' s u)
    (hs : serializeCacheInput m s u = serializeCacheInput m s' u)
    (hu : serializeCacheInput m s u = serializeCacheInput m s u') :
    generateCacheKey m s u = generateCacheKey m s u ∧
    m = m' ∧ s = s' ∧ u = u' ∧
    generateCacheKey "m" "s" "u" ≠ generateCacheKey "m" "s " "u" := by
  refine ⟨rfl, ?_, ?_, ?_, ?_⟩
  · have h := congrArg String.data hm
    simp only [serializeCacheInput, String.data_append] at h
    have h1 : (m.data ++ "|".data ++ s.data ++ "|".data) ++ u.data =
        (m'.data ++ "|".data ++ s.data ++ "|".data) ++ u.data := by
      simpa [List.append_assoc] using h
    have h2 := List.append_cancel_right h1
    have h3 : (m.data ++ ("|".data ++ s.data ++ "|".data)) =
        (m'.data ++ ("|".data ++ s.data ++ "|".data)) := by
      simpa [List.append_assoc] using h2
    exact String.ext (List.append_cancel_right h3)
  · have h := congrArg String.data hs
    simp only [serializeCacheInput, String.data_append] at h
    have h1 : (m.data ++ "|".data ++ s.data) ++ ("|".data ++ u.data) =
        (m.data ++ "|".data ++ s'.data) ++ ("|".data ++ u.data) := by
      simpa [List.append_assoc] using h
    have h2 := List.append_cancel_right h1
    have h3 : (m.data ++ "|".data) ++ s.data = (m.data ++ "|".data) ++ s'.data := by
      simpa [List.append_assoc] using h2
    exact String.ext (List.append_cancel_left h3)
  · have h := congrArg String.data hu
    simp only [serializeCacheInput, String.data_append] at h
    have h1 : (m.data ++ "|".data ++ s.data ++ "|".data) ++ u.data =
        (m.data ++ "|".data ++ s.data ++ "|".data) ++ u'.data := by
      simpa [List.append_assoc] using h
    exact String.ext (List.append_cancel_left h1)
  · decide

/-- **C5 witness**: the amended statement applied at a concrete triple. -/
theorem c5_cache_key_determinism_witness :
    generateCacheKey "m" "s" "u" = generateCacheKey "m" "s" "u" ∧
    "m" = "m" ∧ "s" = "s" ∧ "u" = "u" ∧
    generateCacheKey "m" "s" "u" ≠ generateCacheKey "m" "s " "u" :=
  c5_cache_key_determinism "m" "m" "s" "s" "u" "u" rfl rfl rfl

/-- A `$`-free replacement string is expanded to itself. -/
theorem expandSub_no_dollar (before after : List Char) :
    ∀ repl : List Char, '$' ∉ repl → expandSub before after repl = repl := by
  intro repl
  induction repl with
  | nil => intro; rfl
  | cons c rest ih =>
    intro h
    have hc : ¬c = '$' := fun hc => h (hc ▸ List.mem_cons_self c rest)
    have hrest : '$' ∉ rest := fun hm => h (List.mem_cons_of_mem c hm)
    rw [expandSub.eq_def]
    simp only [if_neg hc]
    rw [ih hrest]

/-- With a `$`-free message, the JavaScript replacement coincides with the
verbatim replacement. -/
theorem jsReplace_eq_verbatim (msg : List Char) (h : '$' ∉ msg) :
    ∀ (fuel : Nat) (pre t : List Char),
      jsReplaceUMGo msg fuel pre t = verbatimReplaceUMGo msg fuel pre t := by
  intro fuel
  induction fuel with
  | zero => intro pre t; rfl
  | succ f ih =>
    intro pre t
    by_cases hs : startsWithPat umPattern t
    · simp [jsReplaceUMGo, verbatimReplaceUMGo, hs, ih, expandSub_no_dollar _ _ msg h]
    · cases t with
      | nil => simp [jsReplaceUMGo, verbatimReplaceUMGo, hs]
      | cons c rest => simp [jsReplaceUMGo, verbatimReplaceUMGo, hs, ih]

/-- The placeholder never matches at the end of the subject. -/
theorem startsWithPat_umPattern_nil : startsWithPat umPattern [] = false := by
  decide

/-- A subject in which the placeholder does not occur is returned
unchanged, whatever the replacement. -/
theorem jsReplace_no_occurrence (msg : List Char) :
    ∀ (fuel : Nat) (pre t : List Char), hasSubstr umPattern t = false →
      jsReplaceUMGo msg fuel pre t = t := by
  intro fuel
  induction fuel with
  | zero => intro pre t _; rfl
  | succ f ih =>
    intro pre t h
    cases t with
    | nil => simp [jsReplaceUMGo, startsWithPat_umPattern_nil]
    | cons c rest =>
      have h2 := h
      simp only [hasSubstr, Bool.or_eq_false_iff] at h2
      simp [jsReplaceUMGo, h2.1, ih, h2.2]

/-- **C6 counterexample.** The insertion is not verbatim: the code uses
JavaScript `String.prototype.replace` with a string replacement, which
interprets `$`-sequences in the user message — resolving the bare
placeholder template against the message `"$$"` yields `"$"`, not `"$$"`. -/
theorem c6_template_counterexample :
    applyPromptTemplate "{user_message}" "$$" = "$" ∧
    applyPromptTemplate "{user_message}" "$$" ≠ "$$" ∧
    applyPromptTemplateVerbatim "{user_message}" "$$" = "$$" := by
  refine ⟨by decide, by decide, by decide⟩

/-- **C6 (amended).** `applyPromptTemplate` replaces every literal occurrence
of `{user_message}` left to right without recursive substitution, inserting
the message after JavaScript replacement-string processing — which is
verbatim insertion whenever the message contains no `'$'` character; a
template without the placeholder is returned unchanged regardless of the
message; and an empty or absent custom template falls back to the
configured default (the template file's content, or the hard-coded default
when the file cannot be read). -/
theorem c6_template_resolution
    (template msg tNo m2 ft : String)
    (hnd : '$' ∉ msg.data)
    (hno : hasSubstr umPattern tNo.data = false) :
    applyPromptTemplate template msg = applyPromptTemplateVerbatim template msg ∧
    applyPromptTemplate tNo m2 = tNo ∧
    applyPromptTemplate "Hello {user_message}!" "world" = "Hello world!" ∧
    loadSystemPromptTemplate (some "") (some ft) = ft ∧
    loadSystemPromptTemplate none (some ft) = ft ∧
    loadSystemPromptTemplate (some "") none = fallbackSystemPrompt ∧
    loadSystemPromptTemplate none none = fallbackSystemPrompt := by
  refine ⟨?_, ?_, by decide, by simp [loadSystemPromptTemplate],
    by simp [loadSystemPromptTemplate], by simp [loadSystemPromptTemplate],
    by simp [loadSystemPromptTemplate]⟩
  · unfold applyPromptTemplate applyPromptTemplateVerbatim
    rw [jsReplace_eq_verbatim msg.data hnd]
  · unfold applyPromptTemplate
    rw [jsReplace_no_occurrence m2.data _ _ tNo.data hno]

/-- **C6 witness**: the amended statement at concrete inputs. -/
theorem c6_template_resolution_witness :
    applyPromptTemplate "a{user_message}b{user_message}" "x" =
      applyPromptTemplateVerbatim "a{user_message}b{user_message}" "x" ∧
    applyPromptTemplate "no placeholder" "whatever" = "no placeholder" ∧
    applyPromptTemplate "Hello {user_message}!" "world" = "Hello world!" ∧
    loadSystemPromptTemplate (some "") (some "file template") = "file template" ∧
    loadSystemPromptTemplate none (some "file template") = "file template" ∧
    loadSystemPromptTemplate (some "") none = fallbackSystemPrompt ∧
    loadSystemPromptTemplate none none = fallbackSystemPrompt :=
  c6_template_resolution "a{user_message}b{user_message}" "x" "no placeholder"
    "whatever" "file template" (by decide) (by decide)

/-- **C3.** Seed-then-evaluate round trip: after `prepopulateCache`
successfully stores a (question, promptContent, answer) row under model `m`
(applying the same `{user_message}` substitution as the evaluator), running
the evaluator on that question with that prompt template and model makes no
model-provider call and returns `cached: true` with the stored answer and
the stored entry's `latencyMs` (0 for seeded entries). -/
theorem c3_seed_then_evaluate
    (c : Cache) (row : CsvImportRow) (m : String) (now now2 : Nat)
    (provider : Nat → Except JSError GenerateTextResult)
    (writeErr2 : Option JSError) (writeErrs : Nat → Option JSError)
    (hw : writeErrs 0 = none) :
    evaluatePrompt provider writeErr2 now2 row.question m row.promptContent
        (prepopulateCache writeErrs m now [row] c).cache =
      ⟨⟨row.question, row.answer, true, 0, none⟩,
       (prepopulateCache writeErrs m now [row] c).cache, 0⟩ ∧
    (prepopulateCache writeErrs m now [row] c).cached = 1 := by
  constructor
  · simp [prepopulateCache, prepopulateCacheGo, hw, evaluatePrompt,
      getCachedResponse, setCachedResponse, cacheFind, List.lookup]
  · simp [prepopulateCache, prepopulateCacheGo, hw]

/-- **C3 witness**: the round trip at a concrete row, with a provider that
would fail if it were ever consulted. -/
theorem c3_seed_then_evaluate_witness :
    evaluatePrompt providerTerminal none 7 sampleRow.question "test-model"
        sampleRow.promptContent
        (prepopulateCache (fun _ => none) "test-model" 5 [sampleRow] []).cache =
      ⟨⟨sampleRow.question, sampleRow.answer, true, 0, none⟩,
       (prepopulateCache (fun _ => none) "test-model" 5 [sampleRow] []).cache, 0⟩ ∧
    (prepopulateCache (fun _ => none) "test-model" 5 [sampleRow] []).cached = 1 :=
  c3_seed_then_evaluate [] sampleRow "test-model" 5 7 providerTerminal none
    (fun _ => none) rfl

/-- The results list of the batch loop always has one entry per prompt. -/
theorem runEvalAux_length
    (provider : Nat → Nat → Except JSError GenerateTextResult)
    (writeErr : Nat → Option JSError) (now : Nat) (model template : String) :
    ∀ (ps : List String) (i : Nat) (c : Cache),
      (runEvalAux provider writeErr now model template ps i c).results.length =
        ps.length := by
  intro ps
  induction ps with
  | nil => intro i c; rfl
  | cons p ps ih => intro i c; simp [runEvalAux, ih]

/-- **C7 counterexample.** A cache-write failure after a successful model
call does NOT leave the in-memory result intact: the write's exception is
caught by the evaluator's outer catch, which discards the model's response
and returns an error result for the item. -/
theorem c7_counterexample :
    (evaluatePrompt providerAlwaysOk (some writeFailError) 0 "q" "m"
        "T: {user_message}" []).result =
      ⟨"q", "", false, 0, some "disk full"⟩ ∧
    (evaluatePrompt providerAlwaysOk (some writeFailError) 0 "q" "m"
        "T: {user_message}" []).result.response ≠ okResult.text ∧
    (evaluatePrompt providerAlwaysOk (some writeFailError) 0 "q" "m"
        "T: {user_message}" []).result.error ≠ none := by
  refine ⟨by decide, by decide, by decide⟩

/-- **C7 (amended).** When an item's model call succeeds but the cache write
fails, that item's evaluation returns an error `EvaluationResult`
(`response = ""`, `cached = false`, `latencyMs = 0`, `error` = the write
error's message) and leaves the cache unchanged; the failure does not abort
the overall evaluation — the batch loop still returns one result per
prompt, whatever the per-item write outcomes. -/
theorem c7_cache_write_failure
    (provider : Nat → Except JSError GenerateTextResult) (e : JSError)
    (r : GenerateTextResult) (now : Nat) (p model T : String) (cache : Cache)
    (hr : (generateTextWithRetry provider).result = .ok r)
    (hmiss : getCachedResponse cache model (applyPromptTemplate T p) p = none) :
    evaluatePrompt provider (some e) now p model T cache =
      ⟨⟨p, "", false, 0, some (jsErrorMessage e)⟩, cache,
       (generateTextWithRetry provider).calls⟩ ∧
    (∀ (provider2 : Nat → Nat → Except JSError GenerateTextResult)
       (writeErr2 : Nat → Option JSError) (ps : List String) (i : Nat) (c2 : Cache),
       (runEvalAux provider2 writeErr2 now model T ps i c2).results.length =
         ps.length) := by
  constructor
  · simp [evaluatePrompt, hmiss, hr]
  · intro provider2 writeErr2 ps i c2
    exact runEvalAux_length provider2 writeErr2 now model T ps i c2

/-- **C7 witness**: the amended statement at concrete inputs. -/
theorem c7_cache_write_failure_witness :
    evaluatePrompt providerAlwaysOk (some writeFailError) 0 "q" "m"
        "T: {user_message}" [] =
      ⟨⟨"q", "", false, 0, some (jsErrorMessage writeFailError)⟩, [],
       (generateTextWithRetry providerAlwaysOk).calls⟩ ∧
    (∀ (provider2 : Nat → Nat → Except JSError GenerateTextResult)
       (writeErr2 : Nat → Option JSError) (ps : List String) (i : Nat) (c2 : Cache),
       (runEvalAux provider2 writeErr2 0 "m" "T: {user_message}" ps i c2).results.length =
         ps.length) :=
  c7_cache_write_failure providerAlwaysOk writeFailError okResult 0 "q" "m"
    "T: {user_message}" [] rfl rfl

/-- **C8.** Exclusivity invariant of every result the evaluator produces:
when `error` is present the result carries no content (`response = ""`,
`cached = false`, `latencyMs = 0`); when `cached = true` there is no error
and both `response` and `latencyMs` are carried over from the stored cache
entry (which, when it was written by the evaluator's own miss path, stored
the original non-cached computation's response text and latency — see the
third conjunct). -/
theorem c8_result_exclusivity
    (provider : Nat → Except JSError GenerateTextResult)
    (writeErr : Option JSError) (now : Nat) (p model T : String) (cache : Cache) :
    ((evaluatePrompt provider writeErr now p model T cache).result.error ≠ none →
      (evaluatePrompt provider writeErr now p model T cache).result.response = "" ∧
      (evaluatePrompt provider writeErr now p model T cache).result.cached = false ∧
      (evaluatePrompt provider writeErr now p model T cache).result.latencyMs = 0) ∧
    ((evaluatePrompt provider writeErr now p model T cache).result.cached = true →
      (evaluatePrompt provider writeErr now p model T cache).result.error = none ∧
      ∃ entry, getCachedResponse cache model (applyPromptTemplate T p) p = some entry ∧
        (evaluatePrompt provider writeErr now p model T cache).result.response =
          entry.response ∧
        (evaluatePrompt provider writeErr now p model T cache).result.latencyMs =
          entry.latencyMs) ∧
    (∀ r : GenerateTextResult, (generateTextWithRetry provider).result = .ok r →
      writeErr = none →
      getCachedResponse cache model (applyPromptTemplate T p) p = none →
      (evaluatePrompt provider writeErr now p model T cache).cache =
        setCachedResponse cache model (applyPromptTemplate T p) p r.text
          r.latencyMs now) := by
  cases hc : getCachedResponse cache model (applyPromptTemplate T p) p with
  | some entry =>
    refine ⟨?_, ?_, ?_⟩
    · intro herr
      exact absurd (by simp [evaluatePrompt, hc]) herr
    · intro _
      exact ⟨by simp [evaluatePrompt, hc], entry, rfl, by simp [evaluatePrompt, hc],
        by simp [evaluatePrompt, hc]⟩
    · intro r _ _ hmiss
      simp [hc] at hmiss
  | none =>
    cases hr : (generateTextWithRetry provider).result with
    | ok r =>
      cases hw : writeErr with
      | none =>
        refine ⟨?_, ?_, ?_⟩
        · intro herr
          exact absurd (by simp [evaluatePrompt, hc, hr]) herr
        · intro hcached
          have : False := by simp [evaluatePrompt, hc, hr] at hcached
          exact this.elim
        · intro r2 hr2 _ _
          injection hr2 with h2
          subst h2
          simp [evaluatePrompt, hc, hr]
      | some e =>
        refine ⟨?_, ?_, ?_⟩
        · intro _
          exact ⟨by simp [evaluatePrompt, hc, hr], by simp [evaluatePrompt, hc, hr],
            by simp [evaluatePrompt, hc, hr]⟩
        · intro hcached
          have : False := by simp [evaluatePrompt, hc, hr] at hcached
          exact this.elim
        · intro r2 _ hw2 _
          simp [hw] at hw2
    | error e =>
      refine ⟨?_, ?_, ?_⟩
      · intro _
        exact ⟨by simp [evaluatePrompt, hc, hr], by simp [evaluatePrompt, hc, hr],
          by simp [evaluatePrompt, hc, hr]⟩
      · intro hcached
        have : False := by simp [evaluatePrompt, hc, hr] at hcached
        exact this.elim
      · intro r2 hr2 _ _
        exact Except.noConfusion hr2

/-- Looking up any other key is unaffected by a cache write. -/
theorem cacheFind_set_ne (c : Cache) (model sp um resp : String) (lat now : Nat)
    (k : String) (hne : k ≠ generateCacheKey model sp um) :
    cacheFind (setCachedResponse c model sp um resp lat now) k = cacheFind c k := by
  simp only [setCachedResponse, cacheFind, List.lookup]
  have : (k == generateCacheKey model sp um) = false := by
    simpa using hne
  simp [this]

/-- Over items whose keys are pairwise distinct, untouched by the initial
cache, and whose cache writes succeed, the batch loop produces exactly the
per-item results predicted by each item's own provider outcomes. -/
theorem runEvalAux_isolated
    (provider : Nat → Nat → Except JSError GenerateTextResult)
    (writeErr : Nat → Option JSError) (now : Nat) (model template : String)
    (hw : ∀ j, writeErr j = none) :
    ∀ (ps : List String) (i₀ : Nat) (c : Cache),
      (∀ p ∈ ps, cacheFind c (itemKey model template p) = none) →
      ps.Pairwise (fun p q => itemKey model template p ≠ itemKey model template q) →
      (runEvalAux provider writeErr now model template ps i₀ c).results =
        expectedResults provider i₀ ps := by
  intro ps
  induction ps with
  | nil => intro i₀ c _ _; rfl
  | cons p ps ih =>
    intro i₀ c hmiss hdist
    have hmiss_p : getCachedResponse c model (applyPromptTemplate template p) p = none :=
      hmiss p (List.mem_cons_self p ps)
    obtain ⟨hdist_head, hdist_tail⟩ := List.pairwise_cons.mp hdist
    cases hr : (generateTextWithRetry (provider i₀)).result with
    | ok r =>
      have hev : evaluatePrompt (provider i₀) (writeErr i₀) now p model template c =
          ⟨⟨p, r.text, false, r.latencyMs, none⟩,
           setCachedResponse c model (applyPromptTemplate template p) p r.text
             r.latencyMs now,
           (generateTextWithRetry (provider i₀)).calls⟩ := by
        simp [evaluatePrompt, hmiss_p, hr, hw i₀]
      have hexp : expectedItemResult (provider i₀) p = ⟨p, r.text, false, r.latencyMs, none⟩ := by
        simp [expectedItemResult, hr]
      have hmiss' : ∀ q ∈ ps,
          cacheFind (setCachedResponse c model (applyPromptTemplate template p) p
            r.text r.latencyMs now) (itemKey model template q) = none := by
        intro q hq
        rw [cacheFind_set_ne _ _ _ _ _ _ _ _ ((hdist_head q hq).symm)]
        exact hmiss q (List.mem_cons_of_mem p hq)
      simp only [runEvalAux, expectedResults, hev, hexp]
      exact congrArg (_ :: ·) (ih (i₀ + 1) _ hmiss' hdist_tail)
    | error e =>
      have hev : evaluatePrompt (provider i₀) (writeErr i₀) now p model template c =
          ⟨⟨p, "", false, 0, some (jsErrorMessage e)⟩, c,
           (generateTextWithRetry (provider i₀)).calls⟩ := by
        simp [evaluatePrompt, hmiss_p, hr]
      have hexp : expectedItemResult (provider i₀) p =
          ⟨p, "", false, 0, some (jsErrorMessage e)⟩ := by
        simp [expectedItemResult, hr]
      simp only [runEvalAux, expectedResults, hev, hexp]
      exact congrArg (_ :: ·)
        (ih (i₀ + 1) _ (fun q hq => hmiss q (List.mem_cons_of_mem p hq)) hdist_tail)

/-- The expected batch results, positionally. -/
theorem expectedResults_getD
    (provider : Nat → Nat → Except JSError GenerateTextResult) :
    ∀ (ps : List String) (i₀ k : Nat), k < ps.length →
      (expectedResults provider i₀ ps).getD k dummyEvaluationResult =
        expectedItemResult (provider (i₀ + k)) (ps.getD k "") := by
  intro ps
  induction ps with
  | nil => intro i₀ k h; simp at h
  | cons p ps ih =>
    intro i₀ k hk
    cases k with
    | zero => simp [expectedResults]
    | succ k2 =>
      have hk2 : k2 < ps.length := by simpa using hk
      have harith : i₀ + (k2 + 1) = (i₀ + 1) + k2 := by omega
      simp only [expectedResults, List.getD_cons_succ, harith]
      exact ih (i₀ + 1) k2 hk2

/-- The expected results have one entry per prompt. -/
theorem expectedResults_length
    (provider : Nat → Nat → Except JSError GenerateTextResult) :
    ∀ (ps : List String) (i₀ : Nat),
      (expectedResults provider i₀ ps).length = ps.length := by
  intro ps
  induction ps with
  | nil => intro i₀; rfl
  | cons p ps ih => intro i₀; simp [expectedResults, ih]

/-- Each expected result keeps its own prompt. -/
theorem expectedItemResult_prompt
    (q : Nat → Except JSError GenerateTextResult) (p : String) :
    (expectedItemResult q p).prompt = p := by
  unfold expectedItemResult
  cases (generateTextWithRetry q).result <;> rfl

/-- When every failing item's error message is non-empty, the summary's
truthy-error count equals the number of failing items. -/
theorem summaryErrors_expected
    (provider : Nat → Nat → Except JSError GenerateTextResult)
    (hmsg : ∀ j e, (generateTextWithRetry (provider j)).result = .error e →
      jsErrorMessage e ≠ "") :
    ∀ (ps : List String) (i₀ : Nat),
      summaryErrors (expectedResults provider i₀ ps) = failingCount provider i₀ ps := by
  intro ps
  induction ps with
  | nil => intro i₀; rfl
  | cons p ps ih =>
    intro i₀
    cases hr : (generateTextWithRetry (provider i₀)).result with
    | ok r =>
      have hexp : expectedItemResult (provider i₀) p = ⟨p, r.text, false, r.latencyMs, none⟩ := by
        simp [expectedItemResult, hr]
      have h1 : truthyError ⟨p, r.text, false, r.latencyMs, none⟩ = false := rfl
      have h2 : resultFails (Except.ok r : Except JSError GenerateTextResult) = false := rfl
      have h3 := ih (i₀ + 1)
      simp only [summaryErrors] at h3
      simp [expectedResults, summaryErrors, failingCount, List.filter_cons, hexp,
        h1, hr, h2, h3]
    | error e =>
      have hexp : expectedItemResult (provider i₀) p =
          ⟨p, "", false, 0, some (jsErrorMessage e)⟩ := by
        simp [expectedItemResult, hr]
      have hne : (jsErrorMessage e == "") = false := by
        simpa using hmsg i₀ e hr
      have h1 : truthyError ⟨p, "", false, 0, some (jsErrorMessage e)⟩ = true := by
        simp [truthyError, hne]
      have h2 : resultFails (Except.error e : Except JSError GenerateTextResult) = true := rfl
      have h3 := ih (i₀ + 1)
      simp only [summaryErrors] at h3
      simp [expectedResults, summaryErrors, failingCount, List.filter_cons, hexp,
        h1, hr, h2, h3]
      omega

/-- **C4 (amended).** Partial-failure isolation and ordering: over a batch
whose item keys are pairwise distinct and absent from the initial cache and
whose cache writes succeed, `runEvaluation` returns exactly one result per
input message, in input order; an item whose model call fails (after
retries) carries `response = ""`, `cached = false`, `latencyMs = 0` and
`error` = the thrown error's message, the other items carry their normal
responses, the run itself never throws (it is a total function into a full
result list), `totalTests` equals the number of messages, and — whenever
every failing error's message is non-empty (the summary counts only truthy
error strings) — the summary's error count equals the number of failing
items. -/
theorem c4_partial_failure_isolation
    (provider : Nat → Nat → Except JSError GenerateTextResult)
    (writeErr : Nat → Option JSError) (now : Nat)
    (prompts : List String) (model systemPrompt fileContent : Option String)
    (cache : Cache) (M T : String)
    (hM : M = jsOrString model DEFAULT_MODEL)
    (hT : T = loadSystemPromptTemplate systemPrompt fileContent)
    (hw : ∀ j, writeErr j = none)
    (hmiss : ∀ p ∈ prompts, cacheFind cache (itemKey M T p) = none)
    (hdist : prompts.Pairwise (fun p q => itemKey M T p ≠ itemKey M T q)) :
    (runEvaluation provider writeErr now prompts model systemPrompt fileContent
        cache).results = expectedResults provider 0 prompts ∧
    (runEvaluation provider writeErr now prompts model systemPrompt fileContent
        cache).results.length = prompts.length ∧
    summaryTotalTests (runEvaluation provider writeErr now prompts model
        systemPrompt fileContent cache).results = prompts.length ∧
    (∀ i, i < prompts.length →
      ((runEvaluation provider writeErr now prompts model systemPrompt fileContent
          cache).results.getD i dummyEvaluationResult).prompt = prompts.getD i "") ∧
    (∀ i e, i < prompts.length →
      (generateTextWithRetry (provider i)).result = .error e →
      (runEvaluation provider writeErr now prompts model systemPrompt fileContent
          cache).results.getD i dummyEvaluationResult =
        ⟨prompts.getD i "", "", false, 0, some (jsErrorMessage e)⟩) ∧
    (∀ i r, i < prompts.length →
      (generateTextWithRetry (provider i)).result = .ok r →
      (runEvaluation provider writeErr now prompts model systemPrompt fileContent
          cache).results.getD i dummyEvaluationResult =
        ⟨prompts.getD i "", r.text, false, r.latencyMs, none⟩) ∧
    ((∀ j e, (generateTextWithRetry (provider j)).result = .error e →
        jsErrorMessage e ≠ "") →
      summaryErrors (runEvaluation provider writeErr now prompts model systemPrompt
        fileContent cache).results = failingCount provider 0 prompts) := by
  subst hM
  subst hT
  have hres : (runEvaluation provider writeErr now prompts model systemPrompt
      fileContent cache).results = expectedResults provider 0 prompts := by
    simp only [runEvaluation]
    exact runEvalAux_isolated provider writeErr now _ _ hw prompts 0 cache hmiss hdist
  refine ⟨hres, ?_, ?_, ?_, ?_, ?_, ?_⟩
  · rw [hres, expectedResults_length]
  · show (runEvaluation provider writeErr now prompts model systemPrompt
      fileContent cache).results.length = prompts.length
    rw [hres, expectedResults_length]
  · intro i hi
    rw [hres, expectedResults_getD provider prompts 0 i hi]
    simpa using expectedItemResult_prompt (provider i) (prompts.getD i "")
  · intro i e hi he
    rw [hres, expectedResults_getD provider prompts 0 i hi]
    simp [expectedItemResult, he]
  · intro i r hi hr
    rw [hres, expectedResults_getD provider prompts 0 i hi]
    simp [expectedItemResult, hr]
  · intro hmsg
    rw [hres]
    exact summaryErrors_expected provider hmsg prompts 0

/-- **C4 witness**: three messages, with the second item's model call
failing terminally, on an empty cache. -/
theorem c4_partial_failure_isolation_witness :
    (runEvaluation batchProviderSecondFails (fun _ => none) 0 ["a", "b", "c"] none
        (some "T: {user_message}") none []).results =
      expectedResults batchProviderSecondFails 0 ["a", "b", "c"] ∧
    (runEvaluation batchProviderSecondFails (fun _ => none) 0 ["a", "b", "c"] none
        (some "T: {user_message}") none []).results.length = (["a", "b", "c"] : List String).length ∧
    summaryTotalTests (runEvaluation batchProviderSecondFails (fun _ => none) 0
        ["a", "b", "c"] none (some "T: {user_message}") none []).results =
      (["a", "b", "c"] : List String).length ∧
    (∀ i, i < (["a", "b", "c"] : List String).length →
      ((runEvaluation batchProviderSecondFails (fun _ => none) 0 ["a", "b", "c"] none
          (some "T: {user_message}") none []).results.getD i
            dummyEvaluationResult).prompt = (["a", "b", "c"] : List String).getD i "") ∧
    (∀ i e, i < (["a", "b", "c"] : List String).length →
      (generateTextWithRetry (batchProviderSecondFails i)).result = .error e →
      (runEvaluation batchProviderSecondFails (fun _ => none) 0 ["a", "b", "c"] none
          (some "T: {user_message}") none []).results.getD i dummyEvaluationResult =
        ⟨(["a", "b", "c"] : List String).getD i "", "", false, 0,
          some (jsErrorMessage e)⟩) ∧
    (∀ i r, i < (["a", "b", "c"] : List String).length →
      (generateTextWithRetry (batchProviderSecondFails i)).result = .ok r →
      (runEvaluation batchProviderSecondFails (fun _ => none) 0 ["a", "b", "c"] none
          (some "T: {user_message}") none []).results.getD i dummyEvaluationResult =
        ⟨(["a", "b", "c"] : List String).getD i "", r.text, false, r.latencyMs, none⟩) ∧
    ((∀ j e, (generateTextWithRetry (batchProviderSecondFails j)).result = .error e →
        jsErrorMessage e ≠ "") →
      summaryErrors (runEvaluation batchProviderSecondFails (fun _ => none) 0
        ["a", "b", "c"] none (some "T: {user_message}") none []).results =
        failingCount batchProviderSecondFails 0 ["a", "b", "c"]) :=
  c4_partial_failure_isolation batchProviderSecondFails (fun _ => none) 0
    ["a", "b", "c"] none (some "T: {user_message}") none [] DEFAULT_MODEL
    "T: {user_message}" rfl rfl (fun _ => rfl) (fun p _ => rfl) (by decide)

/-- **C4 counterexample.** A terminal error whose `Error.message` is the
empty string: the failing item's `error` field is set but EMPTY (`some ""`),
and the summary's error count — which counts truthy `error` strings — is 0,
not 1, for a 3-message run whose 2nd item fails. -/
theorem c4_counterexample :
    (runEvaluation batchProviderSecondFailsEmptyMsg (fun _ => none) 0
        ["a", "b", "c"] none (some "T: {user_message}") none []).results.length = 3 ∧
    ((runEvaluation batchProviderSecondFailsEmptyMsg (fun _ => none) 0
        ["a", "b", "c"] none (some "T: {user_message}") none []).results.getD 1
          dummyEvaluationResult).error = some "" ∧
    summaryErrors (runEvaluation batchProviderSecondFailsEmptyMsg (fun _ => none) 0
        ["a", "b", "c"] none (some "T: {user_message}") none []).results = 0 ∧
    summaryTotalTests (runEvaluation batchProviderSecondFailsEmptyMsg (fun _ => none) 0
        ["a", "b", "c"] none (some "T: {user_message}") none []).results = 3 := by
  refine ⟨by decide, by decide, by decide, by decide⟩

/-- The multi-prompt runner returns one `PromptResult` per system prompt,
each carrying one `EvaluationResult` per message — whatever the provider
and cache-write outcomes. -/
theorem runMultiGo_lengths
    (provider : Nat → Nat → Nat → Except JSError GenerateTextResult)
    (writeErr : Nat → Nat → Option JSError) (now : Nat) (messages : List String)
    (model : String) :
    ∀ (sps : List SystemPromptDef) (j : Nat) (c : Cache),
      (runMultiGo provider writeErr now messages model sps j c).1.length =
        sps.length ∧
      ∀ pr ∈ (runMultiGo provider writeErr now messages model sps j c).1,
        pr.results.length = messages.length := by
  intro sps
  induction sps with
  | nil => intro j c; exact ⟨rfl, fun pr h => absurd h (List.not_mem_nil pr)⟩
  | cons sp sps ih =>
    intro j c
    constructor
    · simp [runMultiGo, (ih (j + 1) _).1]
    · intro pr hpr
      simp only [runMultiGo, List.mem_cons] at hpr
      rcases hpr with rfl | hpr
      · exact runEvalAux_length _ _ _ _ _ _ _ _
      · exact (ih (j + 1) _).2 pr hpr

/-- **C9.** Fatal-input precondition: a `/evaluate` request with no dataset
(no `datasetName`, or a name that resolves to no stored dataset), an empty
dataset, or no system prompts is rejected with a single HTTP error before
any per-item work — zero provider calls and an untouched cache; with valid
inputs the run always completes into a full result set (one `PromptResult`
per system prompt, one `EvaluationResult` per message) regardless of
per-item provider failures. -/
theorem c9_fatal_input_precondition
    (req : EvalRequestNoFile) (datasets : String → Option Dataset)
    (promptStore : String → Option SystemPromptDef)
    (provider : Nat → Nat → Nat → Except JSError GenerateTextResult)
    (writeErr : Nat → Nat → Option JSError) (now : Nat) (cache : Cache) :
    (req.datasetName = none →
      isHttpError (evaluateRoute req datasets promptStore provider writeErr now
          cache).response = true ∧
      (evaluateRoute req datasets promptStore provider writeErr now
          cache).providerCalls = 0 ∧
      (evaluateRoute req datasets promptStore provider writeErr now cache).cache =
        cache) ∧
    (∀ dn, req.datasetName = some dn → datasets dn = none →
      isHttpError (evaluateRoute req datasets promptStore provider writeErr now
          cache).response = true ∧
      (evaluateRoute req datasets promptStore provider writeErr now
          cache).providerCalls = 0 ∧
      (evaluateRoute req datasets promptStore provider writeErr now cache).cache =
        cache) ∧
    (∀ dn ds, req.datasetName = some dn → datasets dn = some ds →
      ds.prompts = [] →
      isHttpError (evaluateRoute req datasets promptStore provider writeErr now
          cache).response = true ∧
      (evaluateRoute req datasets promptStore provider writeErr now
          cache).providerCalls = 0 ∧
      (evaluateRoute req datasets promptStore provider writeErr now cache).cache =
        cache) ∧
    (req.promptNames = [] →
      isHttpError (evaluateRoute req datasets promptStore provider writeErr now
          cache).response = true ∧
      (evaluateRoute req datasets promptStore provider writeErr now
          cache).providerCalls = 0 ∧
      (evaluateRoute req datasets promptStore provider writeErr now cache).cache =
        cache) ∧
    (∀ rn dn ds sps, req.runName = some rn → rn.trim ≠ "" →
      req.datasetName = some dn → datasets dn = some ds → ds.prompts ≠ [] →
      resolvePromptNames promptStore req.promptNames = .ok sps → sps ≠ [] →
      ∃ prs,
        (evaluateRoute req datasets promptStore provider writeErr now
            cache).response = .success prs (routeSummaryOf sps.length prs) ∧
        prs.length = sps.length ∧
        ∀ pr ∈ prs, pr.results.length = ds.prompts.length) := by
  refine ⟨?_, ?_, ?_, ?_, ?_⟩
  · intro hds
    simp only [evaluateRoute]
    cases hrn : req.runName with
    | none => simp [isHttpError]
    | some rn =>
      by_cases ht : rn.trim = ""
      · simp [ht, isHttpError]
      · simp [ht, hds, isHttpError]
  · intro dn hds hnone
    simp only [evaluateRoute]
    cases hrn : req.runName with
    | none => simp [isHttpError]
    | some rn =>
      by_cases ht : rn.trim = ""
      · simp [ht, isHttpError]
      · simp [ht, hds, hnone, isHttpError]
  · intro dn ds hds hload hemp
    simp only [evaluateRoute]
    cases hrn : req.runName with
    | none => simp [isHttpError]
    | some rn =>
      by_cases ht : rn.trim = ""
      · simp [ht, isHttpError]
      · simp [ht, hds, hload, hemp, isHttpError]
  · intro hpn
    simp only [evaluateRoute]
    cases hrn : req.runName with
    | none => simp [isHttpError]
    | some rn =>
      by_cases ht : rn.trim = ""
      · simp [ht, isHttpError]
      · cases hds : req.datasetName with
        | none => simp [ht, isHttpError]
        | some dn =>
          cases hload : datasets dn with
          | none => simp [ht, hds, hload, isHttpError]
          | some ds =>
            by_cases hemp : ds.prompts.length = 0
            · simp [ht, hds, hload, hemp, isHttpError]
            · have hres : resolvePromptNames promptStore req.promptNames = .ok [] := by
                rw [hpn]
                rfl
              simp [ht, hds, hload, hemp, hres, isHttpError]
  · intro rn dn ds sps hrn htrim hds hload hne hres hsne
    have hempf : ¬ds.prompts.length = 0 := by
      simpa [List.length_eq_zero] using hne
    have hsf : ¬sps.length = 0 := by
      simpa [List.length_eq_zero] using hsne
    simp only [evaluateRoute, hrn, hds, hload, hres]
    rw [if_neg htrim, if_neg hempf, if_neg hsf]
    refine ⟨(runMultiPromptEvaluation provider writeErr now ds.prompts sps
      (jsOrString req.model ROUTE_DEFAULT_MODEL) cache).1, rfl, ?_, ?_⟩
    · exact (runMultiGo_lengths provider writeErr now ds.prompts _ sps 0 cache).1
    · exact (runMultiGo_lengths provider writeErr now ds.prompts _ sps 0 cache).2

/-- **C2 witness**: the amended backoff statement at concrete providers. -/
theorem c2_backoff_delays_witness :
    (generateTextWithRetry providerRlThenOk).delays =
      [baseDelay * 2 ^ 0, baseDelay * 2 ^ 1, baseDelay * 2 ^ 2, baseDelay * 2 ^ 3] ∧
    (generateTextWithRetry providerAlwaysRl).delays =
      [baseDelay * 2 ^ 0, baseDelay * 2 ^ 1, baseDelay * 2 ^ 2, baseDelay * 2 ^ 3] ∧
    (generateTextWithRetry providerAlwaysRl).delays.sum = 15000 :=
  c2_backoff_delays providerRlThenOk providerAlwaysRl rateLimitError okResult
    (fun _ => rateLimitError)
    (fun i hi => by simp [providerRlThenOk, hi])
    (by decide)
    (by simp [providerRlThenOk])
    (fun _ _ => rfl)
    (fun _ _ => show isRateLimitError rateLimitError = true by decide)
